import Mathlib

/-!
Verification of the SMPP timestamp codec (smpp/timeformat) against its
natural-language specification.

The C++ sources embedded here:
  * `ParseSmppTimestamp`, `ParseRelativeTimestamp`, `ParseAbsoluteTimestamp`,
    `ParseDlrTimestamp`, `ToSmppTimeString` (both overloads) from
    timeformat.cc;
  * the legacy `getTimeString(const time_duration &)` from timeformat.h.

Machine integers are modelled as `Int` with C truncating division
(`Int.tdiv` / `Int.tmod`); the values involved never overflow 64 bits.
Strings are modelled as Lean `String` (lists of characters).

The libc calendar functions the code calls (`mktime`, `strptime`) are not
part of the repository; they are modelled from their documented POSIX
semantics: `mktime` interprets a `struct tm` as local wall-clock time at a
caller-ambient fixed UTC offset (the `localOff` parameter below) and
ignores the `tm_gmtoff` field on input; `strptime` matches its format
against a prefix of the input and ignores trailing characters.
-/

namespace SmppTime

/-- ASCII decimal digit test, embedding the character class `\d` of the
anchored C++ regex (which in the classic locale is exactly '0'..'9'). -/
def isAsciiDigit (c : Char) : Bool := '0' ≤ c && c ≤ '9'

/-- Numeric value of an ASCII digit character. -/
def digitVal (c : Char) : Nat := c.toNat - '0'.toNat

/-- The ASCII digit character of a value below ten. -/
def digitChar (n : Nat) : Char := Char.ofNat ('0'.toNat + n)

/-- The nine capture groups of the regex
`^(\d{2})(\d{2})(\d{2})(\d{2})(\d{2})(\d{2})(\d{1})(\d{2})([R+-])$`,
with each all-digit group already converted by `stoi`. -/
structure SmppMatch where
  f1 : Nat
  f2 : Nat
  f3 : Nat
  f4 : Nat
  f5 : Nat
  f6 : Nat
  t7 : Nat
  nn : Nat
  p  : Char
deriving DecidableEq, Repr

/-- Anchored match of the sixteen-character pattern `YYMMDDhhmmsstnnp`
against a character list: exactly fifteen digits followed by one of
`R`, `+`, `-`.  Returns the converted capture groups on success. -/
def matchListPattern (cs : List Char) : Option SmppMatch :=
  match cs with
  | [a1, a2, b1, b2, c1, c2, d1, d2, e1, e2, f1, f2, g1, h1, h2, p] =>
    if (isAsciiDigit a1 && isAsciiDigit a2 && isAsciiDigit b1 && isAsciiDigit b2 &&
        isAsciiDigit c1 && isAsciiDigit c2 && isAsciiDigit d1 && isAsciiDigit d2 &&
        isAsciiDigit e1 && isAsciiDigit e2 && isAsciiDigit f1 && isAsciiDigit f2 &&
        isAsciiDigit g1 && isAsciiDigit h1 && isAsciiDigit h2) &&
       (p == 'R' || p == '+' || p == '-') then
      some ⟨10 * digitVal a1 + digitVal a2,
            10 * digitVal b1 + digitVal b2,
            10 * digitVal c1 + digitVal c2,
            10 * digitVal d1 + digitVal d2,
            10 * digitVal e1 + digitVal e2,
            10 * digitVal f1 + digitVal f2,
            digitVal g1,
            10 * digitVal h1 + digitVal h2,
            p⟩
    else none
  | _ => none

/-- Embedding of `regex_match(time.begin(), time.end(), match, pattern)`
with the anchored SMPP timestamp pattern. -/
def matchSmppPattern (s : String) : Option SmppMatch :=
  matchListPattern s.data

/-- Broken-down calendar time, the fields of `struct tm` the code sets
(year is the full Gregorian year, month is 1..12). -/
structure TmFields where
  year  : Int
  month : Int
  day   : Int
  hour  : Int
  min   : Int
  sec   : Int
deriving DecidableEq, Repr

/-- Days since 1970-01-01 of a proleptic-Gregorian civil date
(Howard Hinnant's `days_from_civil`, the standard algorithm used to model
the libc calendar conversion; C integer division is `Int.tdiv`). -/
def daysFromCivil (y m d : Int) : Int :=
  let y' := y - (if m ≤ 2 then 1 else 0)
  let era := (if 0 ≤ y' then y' else y' - 399).tdiv 400
  let yoe := y' - era * 400
  let doy := (153 * (m + (if 2 < m then -3 else 9)) + 2).tdiv 5 + d - 1
  let doe := yoe * 365 + yoe.tdiv 4 - yoe.tdiv 100 + doy
  era * 146097 + doe - 719468

/-- Seconds since the epoch of a broken-down time read as UTC wall clock. -/
def civilSecs (f : TmFields) : Int :=
  daysFromCivil f.year f.month f.day * 86400 + f.hour * 3600 + f.min * 60 + f.sec

/-- Modelled from the spec: POSIX `mktime` (missing from the repository)
interprets the broken-down time as local wall-clock time under the
caller-ambient calendar rules, here a fixed UTC offset `localOff` in
seconds east; the `tm_gmtoff` field is ignored on input. -/
def mktime (localOff : Int) (f : TmFields) : Int :=
  civilSecs f - localOff

/-- Embedding of `ParseRelativeTimestamp(const smatch &)`: the denormalized
duration formula over the six digit pairs (all `int`/`long` arithmetic is
exact for two-digit fields). -/
def ParseRelativeTimestamp (m : SmppMatch) : Int :=
  ((((m.f1 * 365 * 24 + m.f2 * 30 * 24 + m.f3 * 24 + m.f4) * 60 + m.f5) * 60 + m.f6 : Nat) : Int)

/-- The ternary `match[9].compare("+") ? 1 : -1` of
`ParseAbsoluteTimestamp`: `std::string::compare` returns 0 exactly on
equality, so the tag '+' takes the branch `-1` and any other tag takes
`1`. -/
def OffsetSign (m : SmppMatch) : Int :=
  if m.p = '+' then -1 else 1

/-- The value the code stores into `tm.tm_gmtoff`:
`offset_sign * ((offset_hours * 60 * 60) + (offset_minutes * 60))` with
`offset_hours = n >> 2` and `offset_minutes = (n % 4) * 15`. -/
def TmGmtoff (m : SmppMatch) : Int :=
  OffsetSign m * ((((m.nn >>> 2) : Nat) : Int) * 60 * 60 + (((m.nn % 4) * 15 : Nat) : Int) * 60)

/-- Modelled from the spec: the signed UTC offset of §4.2,
`(sign == '-' ? -1 : +1) * (offset_hours*3600 + offset_minutes*60)`. -/
def SpecSignedOffset (m : SmppMatch) : Int :=
  (if m.p = '-' then -1 else 1) * ((((m.nn / 4) : Nat) : Int) * 3600 + (((m.nn % 4) * 15 : Nat) : Int) * 60)

/-- Embedding of `ParseAbsoluteTimestamp(const smatch &)`: the code fills a
`struct tm` with year `2000 + yy`, computes `tm_gmtoff` (see `TmGmtoff`),
and calls `mktime`, which ignores `tm_gmtoff` and applies the ambient
local offset. -/
def ParseAbsoluteTimestamp (localOff : Int) (m : SmppMatch) : Int :=
  mktime localOff ⟨2000 + (m.f1 : Int), (m.f2 : Int), (m.f3 : Int), (m.f4 : Int), (m.f5 : Int), (m.f6 : Int)⟩

/-- Embedding of `ParseSmppTimestamp(const string &)`.  `localOff` is the
ambient local UTC offset read by `mktime`, `now` the wall clock sampled by
`system_clock::now()`; the result pair is (instant, duration) in epoch
seconds and seconds. -/
def ParseSmppTimestamp (localOff now : Int) (s : String) : Except String (Int × Int) :=
  match matchSmppPattern s with
  | some m =>
    if m.p = 'R' then
      let td := ParseRelativeTimestamp m
      .ok (now + td, td)
    else
      let tp := ParseAbsoluteTimestamp localOff m
      .ok (tp, tp - now)
  | none => .error ("Timestamp \"" ++ s ++ "\" has the wrong format.")

/-- Modelled from the spec: `strptime(time, "%y%m%d%H%M", &tm)` (libc, not
in the repository) matches two digits for each field against a prefix of
the input and ignores any trailing characters; `%y` maps 00..68 to
2000..2068 and 69..99 to 1969..1999.  `none` is the failure indication the
C code discards. -/
def strptimeYmdHM (s : String) : Option TmFields :=
  match s.data with
  | a1 :: a2 :: b1 :: b2 :: c1 :: c2 :: d1 :: d2 :: e1 :: e2 :: _rest =>
    if isAsciiDigit a1 && isAsciiDigit a2 && isAsciiDigit b1 && isAsciiDigit b2 &&
       isAsciiDigit c1 && isAsciiDigit c2 && isAsciiDigit d1 && isAsciiDigit d2 &&
       isAsciiDigit e1 && isAsciiDigit e2 then
      let yy := 10 * digitVal a1 + digitVal a2
      let year : Int := if yy ≤ 68 then 2000 + (yy : Int) else 1900 + (yy : Int)
      some ⟨year, (10 * digitVal b1 + digitVal b2 : Nat), (10 * digitVal c1 + digitVal c2 : Nat),
            (10 * digitVal d1 + digitVal d2 : Nat), (10 * digitVal e1 + digitVal e2 : Nat), 0⟩
    else none
  | _ => none

/-- Embedding of `ParseDlrTimestamp(const string &)`.  The C code ignores
`strptime`'s return value and always calls `mktime`; it never throws.  The
`none` branch marks the path where the `struct tm` fields (beyond
`tm_isdst` and `tm_sec`) are left indeterminate, so the returned instant is
an unspecified value — not an error signal. -/
def ParseDlrTimestamp (localOff : Int) (s : String) : Option Int :=
  (strptimeYmdHM s).map (mktime localOff)

/-- Decimal digit list of a natural number (via the fuel-based core
`Nat.toDigits`, which agrees with the decimal output of `sprintf`). -/
def natDecimal (n : Nat) : List Char := Nat.toDigits 10 n

/-- Decimal character list of an integer, sign included, as printed by
`sprintf("%i")`. -/
def intDecimal : Int → List Char
  | .ofNat n => natDecimal n
  | .negSucc n => '-' :: natDecimal (n + 1)

/-- The `sprintf` conversion `%02i`: decimal form, zero-padded on the left
to at least two characters. -/
def pad2L (i : Int) : List Char :=
  let l := intDecimal i
  if l.length < 2 then '0' :: l else l

/-- Embedding of `ToSmppTimeString(const std::chrono::time_point<...> &)`:
the function body is literally `return "hello";` (a placeholder). -/
def ToSmppTimeString_tp (_tp : Int) : String := "hello"

/-- Embedding of `ToSmppTimeString(const std::chrono::seconds &)`:
successive `duration_cast` extraction of hours/minutes/seconds, the
denormalized year/month/day decomposition with C truncating division,
the `yy > 99` overflow check, and the
`sprintf(buf, "%02i%02i%02i%02li%02li%02lli000R", ...)` emission. -/
def ToSmppTimeString_dur (d : Int) : Except String String :=
  let h0 := d.tdiv 3600
  let rem1 := d - h0 * 3600
  let mi := rem1.tdiv 60
  let ss := rem1 - mi * 60
  let yy := (h0.tdiv 24).tdiv 365
  let h1 := h0 - yy * 24 * 365
  let mon := (h1.tdiv 24).tdiv 30
  let h2 := h1 - mon * 24 * 30
  let dd := h2.tdiv 24
  let h3 := h2 - dd * 24
  if 99 < yy then .error "Time duration overflows"
  else .ok (String.mk (pad2L yy ++ pad2L mon ++ pad2L dd ++ pad2L h3 ++ pad2L mi ++ pad2L ss ++ ['0', '0', '0', 'R']))

/-- Embedding of the legacy `getTimeString(const time_duration &)` of
timeformat.h: the same denormalized decomposition of `td.hours()`, with
`td.minutes()` and `td.seconds()` the normalized minute and second parts,
streamed through `setw(2) << setfill('0')` and the literal `"000R"`.  It
has no overflow check. -/
def getTimeString_td (td : Int) : String :=
  let totalHours := td.tdiv 3600
  let yy := (totalHours.tdiv 24).tdiv 365
  let h1 := totalHours - yy * 24 * 365
  let mon := (h1.tdiv 24).tdiv 30
  let h2 := h1 - mon * 24 * 30
  let dd := h2.tdiv 24
  let h3 := h2 - dd * 24
  String.mk (pad2L yy ++ pad2L mon ++ pad2L dd ++ pad2L h3 ++
    pad2L ((td.tdiv 60).tmod 60) ++ pad2L (td.tmod 60) ++ ['0', '0', '0', 'R'])

/-- Derived year count of a duration, `total_hours / 24 / 365` with C
truncating division, as computed by `ToSmppTimeString`. -/
def DurYears (d : Int) : Int := ((d.tdiv 3600).tdiv 24).tdiv 365

/-- Modelled from the spec: the grammar of §4.1 in the spec's own words —
sixteen characters, the first fifteen decimal digits, the last one of
`R`, `+`, `-`. -/
def SpecGrammar (s : String) : Prop :=
  s.data.length = 16 ∧ (∀ c ∈ s.data.take 15, isAsciiDigit c = true) ∧
    (∀ c ∈ s.data.drop 15, c = 'R' ∨ c = '+' ∨ c = '-')

instance (s : String) : Decidable (SpecGrammar s) := by
  unfold SpecGrammar; infer_instance

/-- Modelled from the spec: the intended absolute-instant semantics of
§4.2 — the naive wall-clock value minus the signed UTC offset. -/
def SpecAbsInstant (s : String) : Option Int :=
  (matchSmppPattern s).map fun m =>
    civilSecs ⟨2000 + (m.f1 : Int), (m.f2 : Int), (m.f3 : Int), (m.f4 : Int), (m.f5 : Int), (m.f6 : Int)⟩
      - SpecSignedOffset m

/-- The instant component of a parse result. -/
def parseInstant (localOff now : Int) (s : String) : Except String Int :=
  (ParseSmppTimestamp localOff now s).map Prod.fst

/-- The duration component of a parse result. -/
def parseDuration (localOff now : Int) (s : String) : Except String Int :=
  (ParseSmppTimestamp localOff now s).map Prod.snd

/-- Year field of the denormalized decomposition of a non-negative duration
of `n` seconds, as computed by both formatters. -/
def relY (n : Nat) : Nat := n / 3600 / 24 / 365

/-- Hours remaining after removing whole denormalized years. -/
def relHrs (n : Nat) : Nat := n / 3600 - n / 3600 / 24 / 365 * 24 * 365

/-- Month field (30-day months) of the decomposition. -/
def relMo (n : Nat) : Nat := relHrs n / 24 / 30

/-- Hours remaining after removing whole denormalized months. -/
def relH2 (n : Nat) : Nat := relHrs n - relMo n * 24 * 30

/-- Day field of the decomposition. -/
def relDd (n : Nat) : Nat := relH2 n / 24

/-- Hour field of the decomposition. -/
def relHh (n : Nat) : Nat := relH2 n - relDd n * 24

/-- Minute field of the decomposition. -/
def relMi (n : Nat) : Nat := (n - n / 3600 * 3600) / 60

/-- Second field of the decomposition. -/
def relSs (n : Nat) : Nat := n - n / 3600 * 3600 - (n - n / 3600 * 3600) / 60 * 60

/-- Digit characters below ten have their value recovered by `digitVal`. -/
theorem digitVal_digitChar : ∀ d : Nat, d < 10 → digitVal (digitChar d) = d := by decide

/-- Digit characters below ten satisfy the regex digit class. -/
theorem isAsciiDigit_digitChar : ∀ d : Nat, d < 10 → isAsciiDigit (digitChar d) = true := by decide

/-- The `%02i` conversion of a value below 100 is its two zero-padded
decimal digits. -/
theorem pad2L_two_digits : ∀ v : Nat, v < 100 → pad2L (v : Int) = [digitChar (v / 10), digitChar (v % 10)] := by
  decide

/-- C1: the claim says the signed offset is `+1` for tag '+' and `-1` for
tag '-'.  The code computes the opposite: `match[9].compare("+") ? 1 : -1`
yields `-1` exactly when the tag is '+' (`compare` returns 0 on equality),
so for "111019080000002+" the stored `tm_gmtoff` is `-1800` seconds where
the spec's formula gives `+1800`, and for "111019080000004-" it is `+3600`
where the spec gives `-3600`; in general the computed `tm_gmtoff` is the
negation of the spec's signed offset on every '+' or '-' tag. -/
theorem C1_offset_sign_inverted :
    ((matchSmppPattern "111019080000002+").map TmGmtoff = some (-1800) ∧
      (matchSmppPattern "111019080000002+").map SpecSignedOffset = some 1800) ∧
    ((matchSmppPattern "111019080000004-").map TmGmtoff = some 3600 ∧
      (matchSmppPattern "111019080000004-").map SpecSignedOffset = some (-3600)) ∧
    (∀ m : SmppMatch, m.p = '+' ∨ m.p = '-' → TmGmtoff m = -SpecSignedOffset m) := by
  refine ⟨⟨by decide, by decide⟩, ⟨by decide, by decide⟩, ?_⟩
  intro m hp
  have hdiv : (m.nn >>> 2) = m.nn / 4 := by
    rw [Nat.shiftRight_eq_div_pow]
  rcases hp with hp | hp
  · unfold TmGmtoff OffsetSign SpecSignedOffset
    rw [hp, hdiv, if_pos rfl, if_neg (show ('+' : Char) ≠ '-' by decide)]
    ring
  · unfold TmGmtoff OffsetSign SpecSignedOffset
    rw [hp, hdiv, if_neg (show ('-' : Char) ≠ '+' by decide), if_pos rfl]
    ring

/-- Witness for the universally quantified part of C1's theorem at the
match of "111019080000002+". -/
theorem C1_offset_sign_inverted_witness :
    TmGmtoff ⟨11, 10, 19, 8, 0, 0, 0, 2, '+'⟩ = -SpecSignedOffset ⟨11, 10, 19, 8, 0, 0, 0, 2, '+'⟩ :=
  C1_offset_sign_inverted.2.2 ⟨11, 10, 19, 8, 0, 0, 0, 2, '+'⟩ (Or.inl rfl)

/-- C2: on every valid relative wire string (tag 'R'), the parsed duration
is `((YY*365*24 + MM*30*24 + DD*24 + hh)*60 + mm)*60 + ss` seconds; in
particular "991210233429000R" parses to 876143 hours 34 minutes 29 seconds
and "000002000000000R" to exactly 48 hours. -/
theorem C2_relative_duration_formula :
    (∀ (s : String) (m : SmppMatch) (localOff now : Int),
        matchSmppPattern s = some m → m.p = 'R' →
        parseDuration localOff now s =
          .ok (((((m.f1 * 365 * 24 + m.f2 * 30 * 24 + m.f3 * 24 + m.f4) * 60 + m.f5) * 60 + m.f6 : Nat) : Int))) ∧
    (∀ localOff now : Int,
        parseDuration localOff now "991210233429000R" = .ok (876143 * 3600 + 34 * 60 + 29)) ∧
    (∀ localOff now : Int,
        parseDuration localOff now "000002000000000R" = .ok (48 * 3600)) := by
  refine ⟨?_, fun localOff now => rfl, fun localOff now => rfl⟩
  intro s m localOff now hm hp
  simp [parseDuration, ParseSmppTimestamp, hm, hp, ParseRelativeTimestamp, Except.map]

/-- Witness for C2's quantified clause at "000002000000000R". -/
theorem C2_relative_duration_formula_witness :
    parseDuration 0 0 "000002000000000R" =
      .ok (((((0 * 365 * 24 + 0 * 30 * 24 + 2 * 24 + 0) * 60 + 0) * 60 + 0 : Nat) : Int)) :=
  C2_relative_duration_formula.1 "000002000000000R" ⟨0, 0, 2, 0, 0, 0, 0, 0, 'R'⟩ 0 0 (by decide) rfl

/-- C6: the claim requires `ParseDlrTimestamp` to accept exactly ten
decimal digits and fail with FormatError otherwise.  The code ignores
`strptime`'s result and has no failure path: "1402031337" parses to the
local instant 2014-02-03 13:37:00 as claimed, but the thirteen-character
input "1402031337XYZ" parses to the very same instant instead of failing —
trailing content is silently ignored. -/
theorem C6_dlr_no_rejection :
    ∀ localOff : Int,
      ParseDlrTimestamp localOff "1402031337" = some (mktime localOff ⟨2014, 2, 3, 13, 37, 0⟩) ∧
      ParseDlrTimestamp localOff "1402031337XYZ" = ParseDlrTimestamp localOff "1402031337" ∧
      (ParseDlrTimestamp localOff "1402031337XYZ").isSome = true :=
  fun _ => ⟨rfl, rfl, rfl⟩

/-- C7: the claim says `ToSmppTimeString(instant)` emits the 16-character
`YYMMDDhhmmsstnnp` layout.  The function body is `return "hello";` — a
five-character placeholder, for every input. -/
theorem C7_instant_formatter_is_placeholder :
    ∀ tp : Int, ToSmppTimeString_tp tp = "hello" ∧ (ToSmppTimeString_tp tp).length ≠ 16 := by
  intro tp
  refine ⟨rfl, ?_⟩
  show ("hello" : String).length ≠ 16
  decide

/-- Witness instantiating C7's theorem at the epoch instant. -/
theorem C7_instant_formatter_is_placeholder_witness :
    ToSmppTimeString_tp 0 = "hello" ∧ (ToSmppTimeString_tp 0).length ≠ 16 :=
  C7_instant_formatter_is_placeholder 0

/-- C8: "111019080000000+" (08:00 wall clock, offset 0) and
"111019090000004+" (09:00 wall clock, offset +1h) denote the same instant
2011-10-19 08:00:00 UTC under the spec's offset semantics, yet the code
resolves them to instants one hour apart for every ambient local offset,
because `mktime` ignores the stored `tm_gmtoff` and the offset sign is
inverted. -/
theorem C8_equivalent_offsets_not_identified :
    (SpecAbsInstant "111019080000000+" = SpecAbsInstant "111019090000004+" ∧
      (SpecAbsInstant "111019080000000+").isSome = true) ∧
    ∀ localOff now : Int,
      parseInstant localOff now "111019080000000+" ≠ parseInstant localOff now "111019090000004+" := by
  refine ⟨⟨by decide, by decide⟩, ?_⟩
  intro localOff now h
  have e1 : parseInstant localOff now "111019080000000+" = .ok (1319011200 - localOff) := rfl
  have e2 : parseInstant localOff now "111019090000004+" = .ok (1319014800 - localOff) := rfl
  rw [e1, e2] at h
  simp only [Except.ok.injEq] at h
  omega

/-- Witness instantiating C8's theorem at ambient offset 0 and epoch
"now". -/
theorem C8_equivalent_offsets_not_identified_witness :
    parseInstant 0 0 "111019080000000+" ≠ parseInstant 0 0 "111019090000004+" :=
  C8_equivalent_offsets_not_identified.2 0 0

/-- C10: two valid relative wire strings agreeing on the six digit pairs
YY MM DD hh mm ss parse to the same duration regardless of the tenths
digit and the offset-magnitude field. -/
theorem C10_relative_ignores_tenths_and_offset :
    ∀ (s1 s2 : String) (m1 m2 : SmppMatch) (localOff now : Int),
      matchSmppPattern s1 = some m1 → matchSmppPattern s2 = some m2 →
      m1.p = 'R' → m2.p = 'R' →
      m1.f1 = m2.f1 → m1.f2 = m2.f2 → m1.f3 = m2.f3 →
      m1.f4 = m2.f4 → m1.f5 = m2.f5 → m1.f6 = m2.f6 →
      parseDuration localOff now s1 = parseDuration localOff now s2 := by
  intro s1 s2 m1 m2 localOff now hm1 hm2 hp1 hp2 h1 h2 h3 h4 h5 h6
  simp [parseDuration, ParseSmppTimestamp, hm1, hm2, hp1, hp2,
    ParseRelativeTimestamp, h1, h2, h3, h4, h5, h6]

/-- Witness for C10 at "000002000000000R" and "000002000000951R", which
differ exactly in the tenths digit and the offset-magnitude field. -/
theorem C10_relative_ignores_tenths_and_offset_witness :
    parseDuration 0 0 "000002000000000R" = parseDuration 0 0 "000002000000951R" :=
  C10_relative_ignores_tenths_and_offset "000002000000000R" "000002000000951R"
    ⟨0, 0, 2, 0, 0, 0, 0, 0, 'R'⟩ ⟨0, 0, 2, 0, 0, 0, 9, 51, 'R'⟩ 0 0
    (by decide) (by decide) rfl rfl rfl rfl rfl rfl rfl rfl

/-- The pattern matcher recovers the six two-digit fields from a wire
string assembled out of `%02i`-formatted values below 100, a literal
tenths digit '0', offset "00" and tag 'R'. -/
theorem matchListPattern_fields (y mo dd hh mi ss : Nat)
    (hy : y < 100) (hmo : mo < 100) (hdd : dd < 100)
    (hhh : hh < 100) (hmi : mi < 100) (hss : ss < 100) :
    matchListPattern (pad2L (y : Int) ++ pad2L (mo : Int) ++ pad2L (dd : Int) ++
        pad2L (hh : Int) ++ pad2L (mi : Int) ++ pad2L (ss : Int) ++ ['0', '0', '0', 'R']) =
      some ⟨y, mo, dd, hh, mi, ss, 0, 0, 'R'⟩ := by
  rw [pad2L_two_digits y hy, pad2L_two_digits mo hmo, pad2L_two_digits dd hdd,
    pad2L_two_digits hh hhh, pad2L_two_digits mi hmi, pad2L_two_digits ss hss]
  have ha1 := isAsciiDigit_digitChar (y / 10) (by omega)
  have ha2 := isAsciiDigit_digitChar (y % 10) (by omega)
  have hb1 := isAsciiDigit_digitChar (mo / 10) (by omega)
  have hb2 := isAsciiDigit_digitChar (mo % 10) (by omega)
  have hc1 := isAsciiDigit_digitChar (dd / 10) (by omega)
  have hc2 := isAsciiDigit_digitChar (dd % 10) (by omega)
  have hd1 := isAsciiDigit_digitChar (hh / 10) (by omega)
  have hd2 := isAsciiDigit_digitChar (hh % 10) (by omega)
  have he1 := isAsciiDigit_digitChar (mi / 10) (by omega)
  have he2 := isAsciiDigit_digitChar (mi % 10) (by omega)
  have hf1 := isAsciiDigit_digitChar (ss / 10) (by omega)
  have hf2 := isAsciiDigit_digitChar (ss % 10) (by omega)
  have hv1 := digitVal_digitChar (y / 10) (by omega)
  have hv2 := digitVal_digitChar (y % 10) (by omega)
  have hv3 := digitVal_digitChar (mo / 10) (by omega)
  have hv4 := digitVal_digitChar (mo % 10) (by omega)
  have hv5 := digitVal_digitChar (dd / 10) (by omega)
  have hv6 := digitVal_digitChar (dd % 10) (by omega)
  have hv7 := digitVal_digitChar (hh / 10) (by omega)
  have hv8 := digitVal_digitChar (hh % 10) (by omega)
  have hv9 := digitVal_digitChar (mi / 10) (by omega)
  have hv10 := digitVal_digitChar (mi % 10) (by omega)
  have hv11 := digitVal_digitChar (ss / 10) (by omega)
  have hv12 := digitVal_digitChar (ss % 10) (by omega)
  simp [matchListPattern, ha1, ha2, hb1, hb2, hc1, hc2, hd1, hd2, he1, he2, hf1, hf2]
  refine ⟨by decide, ?_, ?_, ?_, ?_, ?_, ?_, by decide⟩ <;> omega

/-- Field bounds of the denormalized decomposition: months at most 12,
days below 30, hours below 24, minutes and seconds below 60. -/
theorem rel_bounds (n : Nat) :
    relMo n ≤ 12 ∧ relDd n < 30 ∧ relHh n < 24 ∧ relMi n < 60 ∧ relSs n < 60 := by
  simp only [relMo, relDd, relHh, relMi, relSs, relH2, relHrs]
  omega

/-- Recomposing the decomposition through the relative-duration formula
recovers the original second count. -/
theorem rel_recompose (n : Nat) :
    (((relY n * 365 * 24 + relMo n * 30 * 24 + relDd n * 24 + relHh n) * 60 + relMi n) * 60 + relSs n) = n := by
  simp only [relY, relMo, relDd, relHh, relMi, relSs, relH2, relHrs]
  omega

/-- On a non-negative duration of `n` seconds, `ToSmppTimeString` performs
exactly the `Nat`-level denormalized decomposition. -/
theorem toSmpp_dur_ofNat (n : Nat) :
    ToSmppTimeString_dur (n : Int) =
      if 99 < relY n then .error "Time duration overflows"
      else .ok (String.mk (pad2L (relY n : Int) ++ pad2L (relMo n : Int) ++ pad2L (relDd n : Int) ++
        pad2L (relHh n : Int) ++ pad2L (relMi n : Int) ++ pad2L (relSs n : Int) ++ ['0', '0', '0', 'R'])) := by
  have t1 : ((n : Int)).tdiv 3600 = ((n / 3600 : Nat) : Int) := rfl
  simp only [ToSmppTimeString_dur, relY, relMo, relDd, relHh, relMi, relSs, relH2, relHrs]
  rw [t1]
  have t2 : (n : Int) - ((n / 3600 : Nat) : Int) * 3600 = ((n - n / 3600 * 3600 : Nat) : Int) := by
    omega
  rw [t2]
  have t3 : (((n - n / 3600 * 3600 : Nat) : Int)).tdiv 60 = (((n - n / 3600 * 3600) / 60 : Nat) : Int) := rfl
  rw [t3]
  have t4 : ((n - n / 3600 * 3600 : Nat) : Int) - (((n - n / 3600 * 3600) / 60 : Nat) : Int) * 60 =
      ((n - n / 3600 * 3600 - (n - n / 3600 * 3600) / 60 * 60 : Nat) : Int) := by
    omega
  rw [t4]
  have t5 : (((n / 3600 : Nat) : Int)).tdiv 24 = ((n / 3600 / 24 : Nat) : Int) := rfl
  rw [t5]
  have t6 : (((n / 3600 / 24 : Nat) : Int)).tdiv 365 = ((n / 3600 / 24 / 365 : Nat) : Int) := rfl
  rw [t6]
  have t7 : ((n / 3600 : Nat) : Int) - ((n / 3600 / 24 / 365 : Nat) : Int) * 24 * 365 =
      ((n / 3600 - n / 3600 / 24 / 365 * 24 * 365 : Nat) : Int) := by
    omega
  rw [t7]
  have t8 : (((n / 3600 - n / 3600 / 24 / 365 * 24 * 365 : Nat) : Int)).tdiv 24 =
      (((n / 3600 - n / 3600 / 24 / 365 * 24 * 365) / 24 : Nat) : Int) := rfl
  rw [t8]
  have t9 : ((((n / 3600 - n / 3600 / 24 / 365 * 24 * 365) / 24 : Nat) : Int)).tdiv 30 =
      (((n / 3600 - n / 3600 / 24 / 365 * 24 * 365) / 24 / 30 : Nat) : Int) := rfl
  rw [t9]
  have t10 : ((n / 3600 - n / 3600 / 24 / 365 * 24 * 365 : Nat) : Int) -
      (((n / 3600 - n / 3600 / 24 / 365 * 24 * 365) / 24 / 30 : Nat) : Int) * 24 * 30 =
      ((n / 3600 - n / 3600 / 24 / 365 * 24 * 365 -
        (n / 3600 - n / 3600 / 24 / 365 * 24 * 365) / 24 / 30 * 24 * 30 : Nat) : Int) := by
    omega
  rw [t10]
  have t11 : (((n / 3600 - n / 3600 / 24 / 365 * 24 * 365 -
      (n / 3600 - n / 3600 / 24 / 365 * 24 * 365) / 24 / 30 * 24 * 30 : Nat) : Int)).tdiv 24 =
      (((n / 3600 - n / 3600 / 24 / 365 * 24 * 365 -
        (n / 3600 - n / 3600 / 24 / 365 * 24 * 365) / 24 / 30 * 24 * 30) / 24 : Nat) : Int) := rfl
  rw [t11]
  have t12 : ((n / 3600 - n / 3600 / 24 / 365 * 24 * 365 -
      (n / 3600 - n / 3600 / 24 / 365 * 24 * 365) / 24 / 30 * 24 * 30 : Nat) : Int) -
      (((n / 3600 - n / 3600 / 24 / 365 * 24 * 365 -
        (n / 3600 - n / 3600 / 24 / 365 * 24 * 365) / 24 / 30 * 24 * 30) / 24 : Nat) : Int) * 24 =
      ((n / 3600 - n / 3600 / 24 / 365 * 24 * 365 -
        (n / 3600 - n / 3600 / 24 / 365 * 24 * 365) / 24 / 30 * 24 * 30 -
        (n / 3600 - n / 3600 / 24 / 365 * 24 * 365 -
          (n / 3600 - n / 3600 / 24 / 365 * 24 * 365) / 24 / 30 * 24 * 30) / 24 * 24 : Nat) : Int) := by
    omega
  rw [t12]
  rcases Nat.lt_or_ge 99 (n / 3600 / 24 / 365) with h | h
  · rw [if_pos (by exact_mod_cast h), if_pos h]
  · rw [if_neg (by exact_mod_cast Nat.not_lt.mpr h), if_neg (Nat.not_lt.mpr h)]

/-- The legacy stream formatter performs the same decomposition, with the
normalized minute and second parts of the duration. -/
theorem getTd_ofNat (n : Nat) :
    getTimeString_td (n : Int) =
      String.mk (pad2L (relY n : Int) ++ pad2L (relMo n : Int) ++ pad2L (relDd n : Int) ++
        pad2L (relHh n : Int) ++ pad2L (Nat.cast (n / 60 % 60) : Int) ++
        pad2L (Nat.cast (n % 60) : Int) ++ ['0', '0', '0', 'R']) := by
  have t1 : ((n : Int)).tdiv 3600 = ((n / 3600 : Nat) : Int) := rfl
  have tm1 : ((n : Int)).tdiv 60 = ((n / 60 : Nat) : Int) := rfl
  have tm2 : (((n / 60 : Nat) : Int)).tmod 60 = ((n / 60 % 60 : Nat) : Int) := rfl
  have tm3 : ((n : Int)).tmod 60 = ((n % 60 : Nat) : Int) := rfl
  simp only [getTimeString_td, relY, relMo, relDd, relHh, relH2, relHrs]
  rw [t1, tm1, tm2, tm3]
  have t5 : (((n / 3600 : Nat) : Int)).tdiv 24 = ((n / 3600 / 24 : Nat) : Int) := rfl
  rw [t5]
  have t6 : (((n / 3600 / 24 : Nat) : Int)).tdiv 365 = ((n / 3600 / 24 / 365 : Nat) : Int) := rfl
  rw [t6]
  have t7 : ((n / 3600 : Nat) : Int) - ((n / 3600 / 24 / 365 : Nat) : Int) * 24 * 365 =
      ((n / 3600 - n / 3600 / 24 / 365 * 24 * 365 : Nat) : Int) := by
    omega
  rw [t7]
  have t8 : (((n / 3600 - n / 3600 / 24 / 365 * 24 * 365 : Nat) : Int)).tdiv 24 =
      (((n / 3600 - n / 3600 / 24 / 365 * 24 * 365) / 24 : Nat) : Int) := rfl
  rw [t8]
  have t9 : ((((n / 3600 - n / 3600 / 24 / 365 * 24 * 365) / 24 : Nat) : Int)).tdiv 30 =
      (((n / 3600 - n / 3600 / 24 / 365 * 24 * 365) / 24 / 30 : Nat) : Int) := rfl
  rw [t9]
  have t10 : ((n / 3600 - n / 3600 / 24 / 365 * 24 * 365 : Nat) : Int) -
      (((n / 3600 - n / 3600 / 24 / 365 * 24 * 365) / 24 / 30 : Nat) : Int) * 24 * 30 =
      ((n / 3600 - n / 3600 / 24 / 365 * 24 * 365 -
        (n / 3600 - n / 3600 / 24 / 365 * 24 * 365) / 24 / 30 * 24 * 30 : Nat) : Int) := by
    omega
  rw [t10]
  have t11 : (((n / 3600 - n / 3600 / 24 / 365 * 24 * 365 -
      (n / 3600 - n / 3600 / 24 / 365 * 24 * 365) / 24 / 30 * 24 * 30 : Nat) : Int)).tdiv 24 =
      (((n / 3600 - n / 3600 / 24 / 365 * 24 * 365 -
        (n / 3600 - n / 3600 / 24 / 365 * 24 * 365) / 24 / 30 * 24 * 30) / 24 : Nat) : Int) := rfl
  rw [t11]
  have t12 : ((n / 3600 - n / 3600 / 24 / 365 * 24 * 365 -
      (n / 3600 - n / 3600 / 24 / 365 * 24 * 365) / 24 / 30 * 24 * 30 : Nat) : Int) -
      (((n / 3600 - n / 3600 / 24 / 365 * 24 * 365 -
        (n / 3600 - n / 3600 / 24 / 365 * 24 * 365) / 24 / 30 * 24 * 30) / 24 : Nat) : Int) * 24 =
      ((n / 3600 - n / 3600 / 24 / 365 * 24 * 365 -
        (n / 3600 - n / 3600 / 24 / 365 * 24 * 365) / 24 / 30 * 24 * 30 -
        (n / 3600 - n / 3600 / 24 / 365 * 24 * 365 -
          (n / 3600 - n / 3600 / 24 / 365 * 24 * 365) / 24 / 30 * 24 * 30) / 24 * 24 : Nat) : Int) := by
    omega
  rw [t12]

/-- The anchored sixteen-character pattern accepts a character list exactly
when it has length 16, its first fifteen characters are decimal digits and
its last character is one of 'R', '+', '-'. -/
theorem matchList_isSome_iff (cs : List Char) :
    (matchListPattern cs).isSome = true ↔
      (cs.length = 16 ∧ (∀ c ∈ cs.take 15, isAsciiDigit c = true) ∧
        (∀ c ∈ cs.drop 15, c = 'R' ∨ c = '+' ∨ c = '-')) := by
  have hsplit : ∀ (b : Bool) (x : SmppMatch), Option.isSome (if b = true then some x else none) = b := by
    intro b x
    cases b <;> simp
  rcases cs with _ | ⟨a1, cs⟩
  · simp [matchListPattern]
  rcases cs with _ | ⟨a2, cs⟩
  · simp [matchListPattern]
  rcases cs with _ | ⟨b1, cs⟩
  · simp [matchListPattern]
  rcases cs with _ | ⟨b2, cs⟩
  · simp [matchListPattern]
  rcases cs with _ | ⟨c1, cs⟩
  · simp [matchListPattern]
  rcases cs with _ | ⟨c2, cs⟩
  · simp [matchListPattern]
  rcases cs with _ | ⟨d1, cs⟩
  · simp [matchListPattern]
  rcases cs with _ | ⟨d2, cs⟩
  · simp [matchListPattern]
  rcases cs with _ | ⟨e1, cs⟩
  · simp [matchListPattern]
  rcases cs with _ | ⟨e2, cs⟩
  · simp [matchListPattern]
  rcases cs with _ | ⟨f1, cs⟩
  · simp [matchListPattern]
  rcases cs with _ | ⟨f2, cs⟩
  · simp [matchListPattern]
  rcases cs with _ | ⟨g1, cs⟩
  · simp [matchListPattern]
  rcases cs with _ | ⟨h1, cs⟩
  · simp [matchListPattern]
  rcases cs with _ | ⟨h2, cs⟩
  · simp [matchListPattern]
  rcases cs with _ | ⟨p, cs⟩
  · simp [matchListPattern]
  rcases cs with _ | ⟨q, cs⟩
  · rw [show matchListPattern [a1, a2, b1, b2, c1, c2, d1, d2, e1, e2, f1, f2, g1, h1, h2, p] =
      (if ((isAsciiDigit a1 && isAsciiDigit a2 && isAsciiDigit b1 && isAsciiDigit b2 &&
        isAsciiDigit c1 && isAsciiDigit c2 && isAsciiDigit d1 && isAsciiDigit d2 &&
        isAsciiDigit e1 && isAsciiDigit e2 && isAsciiDigit f1 && isAsciiDigit f2 &&
        isAsciiDigit g1 && isAsciiDigit h1 && isAsciiDigit h2) &&
        (p == 'R' || p == '+' || p == '-')) = true then
          some ⟨10 * digitVal a1 + digitVal a2, 10 * digitVal b1 + digitVal b2,
            10 * digitVal c1 + digitVal c2, 10 * digitVal d1 + digitVal d2,
            10 * digitVal e1 + digitVal e2, 10 * digitVal f1 + digitVal f2,
            digitVal g1, 10 * digitVal h1 + digitVal h2, p⟩
        else none) from rfl]
    rw [hsplit]
    simp [List.take, List.drop]
    tauto
  · simp [matchListPattern]

/-- The parser succeeds exactly when the pattern matcher succeeds: both
branches of a match return `.ok`, and a failed match raises the format
error. -/
theorem parse_isOk_eq (localOff now : Int) (s : String) :
    (ParseSmppTimestamp localOff now s).isOk = (matchSmppPattern s).isSome := by
  rcases h : matchSmppPattern s with _ | m
  · simp [ParseSmppTimestamp, h, Except.isOk, Except.toBool]
  · by_cases hp : m.p = 'R' <;>
      simp [ParseSmppTimestamp, h, hp, Except.isOk, Except.toBool]

/-- C5: `ParseSmppTimestamp` succeeds exactly on strings matching the
anchored grammar — sixteen characters, fifteen digits, final tag in
`{R,+,-}` — and on any other input fails with a FormatError message naming
the offending input; in particular the four listed malformed inputs all
fail with that message. -/
theorem C5_anchored_grammar :
    ∀ (localOff now : Int) (s : String),
      ((ParseSmppTimestamp localOff now s).isOk = true ↔ SpecGrammar s) ∧
      (¬ SpecGrammar s →
        ParseSmppTimestamp localOff now s = .error ("Timestamp \"" ++ s ++ "\" has the wrong format.")) ∧
      ParseSmppTimestamp localOff now "11101910301110+" =
        .error "Timestamp \"11101910301110+\" has the wrong format." ∧
      ParseSmppTimestamp localOff now "000002000000000r" =
        .error "Timestamp \"000002000000000r\" has the wrong format." ∧
      ParseSmppTimestamp localOff now "0000020000AA000R" =
        .error "Timestamp \"0000020000AA000R\" has the wrong format." ∧
      ParseSmppTimestamp localOff now "" = .error "Timestamp \"\" has the wrong format." := by
  intro localOff now s
  refine ⟨?_, ?_, rfl, rfl, rfl, rfl⟩
  · rw [parse_isOk_eq]
    exact matchList_isSome_iff s.data
  · intro hns
    have h1 : (matchSmppPattern s).isSome = false := by
      rcases h : (matchSmppPattern s).isSome with _ | _
      · rfl
      · exact absurd ((matchList_isSome_iff s.data).mp h) hns
    have h2 : matchSmppPattern s = none := by
      rcases h : matchSmppPattern s with _ | m
      · rfl
      · rw [h] at h1
        cases h1
    unfold ParseSmppTimestamp
    rw [h2]

/-- Witness for C5 at the wrong-length input "11101910301110+". -/
theorem C5_anchored_grammar_witness :
    ParseSmppTimestamp 0 0 "11101910301110+" =
      .error "Timestamp \"11101910301110+\" has the wrong format." :=
  (C5_anchored_grammar 0 0 "11101910301110+").2.1 (by decide)

/-- C3 counterexample: the claim quantifies over every duration with
derived year count at most 99, which includes negative durations.  At
`d = -1` seconds the year count is 0, yet the formatter emits
"0000000000-1000R" (the seconds field prints as "-1"), which the parser
rejects, so the round-trip does not recover `d`. -/
theorem C3_roundtrip_counterexample :
    DurYears (-1) ≤ 99 ∧
    ToSmppTimeString_dur (-1) = .ok "0000000000-1000R" ∧
    ParseSmppTimestamp 0 0 "0000000000-1000R" =
      .error "Timestamp \"0000000000-1000R\" has the wrong format." := by
  refine ⟨by decide, rfl, rfl⟩

/-- C3 as amended: for every non-negative duration whose derived year
count is at most 99, formatting and re-parsing recovers exactly the
duration (and the accompanying absolute instant is now + duration). -/
theorem C3_roundtrip_nonneg (localOff now d : Int) (hd : 0 ≤ d) (hy : DurYears d ≤ 99) :
    ∃ w, ToSmppTimeString_dur d = .ok w ∧
      ParseSmppTimestamp localOff now w = .ok (now + d, d) := by
  obtain ⟨n, rfl⟩ := Int.eq_ofNat_of_zero_le hd
  have hyn : relY n ≤ 99 := by
    have h : DurYears (n : Int) = ((relY n : Nat) : Int) := rfl
    rw [h] at hy
    exact_mod_cast hy
  have hb := rel_bounds n
  refine ⟨String.mk (pad2L (relY n : Int) ++ pad2L (relMo n : Int) ++ pad2L (relDd n : Int) ++
    pad2L (relHh n : Int) ++ pad2L (relMi n : Int) ++ pad2L (relSs n : Int) ++ ['0', '0', '0', 'R']), ?_, ?_⟩
  · rw [toSmpp_dur_ofNat, if_neg (by omega)]
  · have hfields : matchSmppPattern (String.mk (pad2L (relY n : Int) ++ pad2L (relMo n : Int) ++
        pad2L (relDd n : Int) ++ pad2L (relHh n : Int) ++ pad2L (relMi n : Int) ++
        pad2L (relSs n : Int) ++ ['0', '0', '0', 'R'])) =
        some ⟨relY n, relMo n, relDd n, relHh n, relMi n, relSs n, 0, 0, 'R'⟩ :=
      matchListPattern_fields (relY n) (relMo n) (relDd n) (relHh n) (relMi n) (relSs n)
        (by omega) (by omega) (by omega) (by omega) (by omega) (by omega)
    have hrec : ((((relY n * 365 * 24 + relMo n * 30 * 24 + relDd n * 24 + relHh n) * 60 +
        relMi n) * 60 + relSs n : Nat) : Int) = (n : Int) := by
      exact_mod_cast rel_recompose n
    simp only [ParseSmppTimestamp, hfields, ParseRelativeTimestamp, reduceIte]
    rw [hrec]

/-- Witness for C3's amended theorem at 48 hours. -/
theorem C3_roundtrip_nonneg_witness :
    ∃ w, ToSmppTimeString_dur (172800 : Int) = .ok w ∧
      ParseSmppTimestamp 0 0 w = .ok (0 + 172800, 172800) :=
  C3_roundtrip_nonneg 0 0 172800 (by decide) (by decide)

/-- C4: formatting a duration fails (with the overflow error) exactly when
the derived year count `hours / 24 / 365` exceeds 99; otherwise it emits
the `%02i`-padded fields of the denormalized decomposition followed by
"000R"; in particular 875043h34m29s formats to "991025033429000R" and
876143h34m29s overflows. -/
theorem C4_overflow_iff_and_examples :
    (∀ d : Int, (∃ e, ToSmppTimeString_dur d = .error e) ↔ 99 < DurYears d) ∧
    (∀ n : Nat, relY n ≤ 99 →
      ToSmppTimeString_dur (n : Int) =
        .ok (String.mk (pad2L (relY n : Int) ++ pad2L (relMo n : Int) ++ pad2L (relDd n : Int) ++
          pad2L (relHh n : Int) ++ pad2L (relMi n : Int) ++ pad2L (relSs n : Int) ++ ['0', '0', '0', 'R']))) ∧
    ToSmppTimeString_dur (875043 * 3600 + 34 * 60 + 29) = .ok "991025033429000R" ∧
    ToSmppTimeString_dur (876143 * 3600 + 34 * 60 + 29) = .error "Time duration overflows" := by
  refine ⟨?_, ?_, rfl, rfl⟩
  · intro d
    constructor
    · rintro ⟨e, he⟩
      by_contra hnot
      rw [not_lt] at hnot
      have hnot' : ¬(99 < ((d.tdiv 3600).tdiv 24).tdiv 365) := not_lt.mpr hnot
      simp only [ToSmppTimeString_dur] at he
      rw [if_neg hnot'] at he
      cases he
    · intro h
      refine ⟨"Time duration overflows", ?_⟩
      simp only [DurYears] at h
      simp only [ToSmppTimeString_dur]
      rw [if_pos h]
  · intro n hyn
    rw [toSmpp_dur_ofNat, if_neg (by omega)]

/-- Witness for C4's emission clause at 48 hours. -/
theorem C4_overflow_iff_and_examples_witness :
    ToSmppTimeString_dur ((172800 : Nat) : Int) =
      .ok (String.mk (pad2L (relY 172800 : Int) ++ pad2L (relMo 172800 : Int) ++
        pad2L (relDd 172800 : Int) ++ pad2L (relHh 172800 : Int) ++
        pad2L (relMi 172800 : Int) ++ pad2L (relSs 172800 : Int) ++ ['0', '0', '0', 'R'])) :=
  C4_overflow_iff_and_examples.2.1 172800 (by decide)

/-- C9: on every non-negative duration with derived year count at most 99
the legacy `getTimeString(time_duration)` and the new
`ToSmppTimeString(seconds)` produce the same sixteen-character wire
string. -/
theorem C9_legacy_and_new_formatter_agree (d : Int) (hd : 0 ≤ d) (hy : DurYears d ≤ 99) :
    ToSmppTimeString_dur d = .ok (getTimeString_td d) ∧ (getTimeString_td d).length = 16 := by
  obtain ⟨n, rfl⟩ := Int.eq_ofNat_of_zero_le hd
  have hyn : relY n ≤ 99 := by
    have h : DurYears (n : Int) = ((relY n : Nat) : Int) := rfl
    rw [h] at hy
    exact_mod_cast hy
  have hb := rel_bounds n
  have e1 : relMi n = n / 60 % 60 := by
    simp only [relMi]
    omega
  have e2 : relSs n = n % 60 := by
    simp only [relSs]
    omega
  constructor
  · rw [toSmpp_dur_ofNat, if_neg (by omega), getTd_ofNat, e1, e2]
  · rw [getTd_ofNat]
    have hlen : ∀ v : Nat, v < 100 → (pad2L (v : Int)).length = 2 := by
      intro v hv
      rw [pad2L_two_digits v hv]
      rfl
    have l1 := hlen (relY n) (by omega)
    have l2 := hlen (relMo n) (by omega)
    have l3 := hlen (relDd n) (by omega)
    have l4 := hlen (relHh n) (by omega)
    have l5 := hlen (n / 60 % 60) (by omega)
    have l6 := hlen (n % 60) (by omega)
    show (pad2L (relY n : Int) ++ pad2L (relMo n : Int) ++ pad2L (relDd n : Int) ++
      pad2L (relHh n : Int) ++ pad2L (Nat.cast (n / 60 % 60) : Int) ++
      pad2L (Nat.cast (n % 60) : Int) ++ ['0', '0', '0', 'R']).length = 16
    simp only [List.length_append, List.length_cons, List.length_nil, l1, l2, l3, l4, l5, l6]

/-- Witness for C9 at 48 hours. -/
theorem C9_legacy_and_new_formatter_agree_witness :
    ToSmppTimeString_dur (172800 : Int) = .ok (getTimeString_td (172800 : Int)) ∧
      (getTimeString_td (172800 : Int)).length = 16 :=
  C9_legacy_and_new_formatter_agree 172800 (by decide) (by decide)

end SmppTime
